import Mathlib

/-!
Verification development for the XZellZeissCam camera device adapter
(src/DeviceAdapters/XZellZeissCam/XZellZeissCam.cpp / .h).

The definitions below are a shallow embedding of the adapter's data model
and operations: machine integers (`long`, `int`, `unsigned`) become `Int`,
`double` parameters that only flow through unchanged become `Rat`, fallible
operations return `Int × State` (the Micro-Manager status code plus the
updated state), and the worker thread's drain loop becomes a fuel-indexed
recursion whose per-iteration environment (delivery results, external stop
requests, lock availability) is passed in as explicit oracles.
-/

namespace XZellZeissCam

/-! ## Micro-Manager status codes

Status codes used by the adapter (from the device interface layer; only
their distinctness matters to the adapter logic). -/

def DEVICE_OK : Int := 0
def DEVICE_ERR : Int := 1
def DEVICE_BUFFER_OVERFLOW : Int := 22
def DEVICE_CAMERA_BUSY_ACQUIRING : Int := 30

/-! ## Frame buffer and pixel formats -/

/-- Modelled from the spec: the FrameBuffer (`ImgBuffer img_`, owned by the
device support library, not under src/) keeps a contiguous byte region whose
capacity is exactly `width * height * bytesPerPixel`; `Resize` updates the
dimensions (the two-argument form keeps the current depth).  Only the
dimension triple is observable to the adapter code, so the model is the
triple itself. -/
structure ImgBuf where
  width : Int
  height : Int
  depth : Int
  deriving Repr, DecidableEq

/-- Two-argument `ImgBuffer::Resize(w, h)`: keeps the current pixel depth. -/
def ImgBuf.resize2 (b : ImgBuf) (w h : Int) : ImgBuf :=
  { b with width := w, height := h }

/-- Three-argument `ImgBuffer::Resize(w, h, d)`. -/
def ImgBuf.resize3 (_ : ImgBuf) (w h d : Int) : ImgBuf :=
  ⟨w, h, d⟩

/-- Allowed values of the PixelType property: `Initialize` registers exactly
"8bit" and "16bit" as allowed values. -/
inductive PixType where
  | p8
  | p16
  deriving Repr, DecidableEq

/-- Byte depth of each allowed pixel type, as computed by
`ResizeImageBuffer` (8bit gives 1, 16bit gives 2). -/
def PixType.byteDepth : PixType → Int
  | .p8 => 1
  | .p16 => 2

/-! ## Acquisition thread control state

State of `ZeissAcquisitionThread` (declared as `MySequenceThread` in the
header): run length, interval, per-run counter, stop/suspend flags. -/

structure ThreadCtl where
  numImages : Int
  intervalMs : Rat
  imageCounter : Int
  stop : Bool
  suspend : Bool
  deriving Repr, DecidableEq

/-! ## Camera state

The fields of `XZellZeissCamera` that the verified operations read or
write. -/

structure Camera where
  img : ImgBuf
  cameraCCDXSize : Int
  cameraCCDYSize : Int
  binSize : Int
  pixelType : PixType
  roiX : Int
  roiY : Int
  multiROIXs : List Int
  multiROIYs : List Int
  multiROIWidths : List Int
  multiROIHeights : List Int
  imageCounter : Int
  stopOnOverflow : Bool
  thd : ThreadCtl
  deriving Repr, DecidableEq

/-- `XZellZeissCamera::IsCapturing`: returns `!thd_->IsStopped()`. -/
def isCapturing (s : Camera) : Bool :=
  ! s.thd.stop

/-- `XZellZeissCamera::GetImageBufferSize`: returns
`img_.Width() * img_.Height() * GetImageBytesPerPixel()`. -/
def getImageBufferSize (s : Camera) : Int :=
  s.img.width * s.img.height * s.img.depth

/-- `XZellZeissCamera::ResizeImageBuffer`: reads the PixelType property,
maps it to a byte depth (1 for 8bit, 2 for 16bit) and resizes `img_` to
`cameraCCDXSize_/binSize_ × cameraCCDYSize_/binSize_ × byteDepth`
(C++ integer division; on the nonnegative values in range this is floor
division). -/
def resizeImageBuffer (s : Camera) : Int × Camera :=
  let byteDepth := s.pixelType.byteDepth
  (DEVICE_OK,
   { s with img := s.img.resize3 (s.cameraCCDXSize / s.binSize)
                     (s.cameraCCDYSize / s.binSize) byteDepth })

/-- `XZellZeissCamera::OnCameraCCDXSize`, `MM::AfterSet` branch: rejects a
requested width outside 16..33000 with `DEVICE_ERR` before touching any
state; on an in-range value that differs from the stored one it updates
`cameraCCDXSize_` and resizes `img_` (two-argument resize, depth kept). -/
def onCameraCCDXSizeSet (s : Camera) (value : Int) : Int × Camera :=
  if value < 16 ∨ 33000 < value then
    (DEVICE_ERR, s)
  else if value ≠ s.cameraCCDXSize then
    let s' := { s with cameraCCDXSize := value }
    (DEVICE_OK,
     { s' with img := s'.img.resize2 (s'.cameraCCDXSize / s'.binSize)
                        (s'.cameraCCDYSize / s'.binSize) })
  else
    (DEVICE_OK, s)

/-- `XZellZeissCamera::OnCameraCCDYSize`, `MM::AfterSet` branch: same as the
X setter, for the stored height. -/
def onCameraCCDYSizeSet (s : Camera) (value : Int) : Int × Camera :=
  if value < 16 ∨ 33000 < value then
    (DEVICE_ERR, s)
  else if value ≠ s.cameraCCDYSize then
    let s' := { s with cameraCCDYSize := value }
    (DEVICE_OK,
     { s' with img := s'.img.resize2 (s'.cameraCCDXSize / s'.binSize)
                        (s'.cameraCCDYSize / s'.binSize) })
  else
    (DEVICE_OK, s)

/-- `XZellZeissCamera::OnPixelType`, `MM::AfterSet` branch, for the two
allowed property values: resizes `img_` in place to the format's byte depth
(width and height kept) and returns `DEVICE_OK`.  The busy check
(`IsCapturing`) comes first. -/
def onPixelTypeSet (s : Camera) (pt : PixType) : Int × Camera :=
  if isCapturing s then
    (DEVICE_CAMERA_BUSY_ACQUIRING, s)
  else
    (DEVICE_OK,
     { s with pixelType := pt,
              img := s.img.resize3 s.img.width s.img.height pt.byteDepth })

/-- `XZellZeissCamera::OnBinning`, `MM::AfterSet` branch: rejected while
capturing; otherwise stores the new binning factor and calls
`ResizeImageBuffer`. -/
def onBinningSet (s : Camera) (binSize : Int) : Int × Camera :=
  if isCapturing s then
    (DEVICE_CAMERA_BUSY_ACQUIRING, s)
  else
    resizeImageBuffer { s with binSize := binSize }

/-- `XZellZeissCamera::SetROI`: always discards the configured multi-ROI
rectangles first; `(xSize, ySize) = (0, 0)` clears the ROI (full-frame
resize via `ResizeImageBuffer`, origin reset to `(0,0)`), any other size
resizes `img_` to `xSize × ySize` and stores the origin. -/
def setROI (s : Camera) (x y xSize ySize : Int) : Int × Camera :=
  let s0 := { s with multiROIXs := [], multiROIYs := [],
                     multiROIWidths := [], multiROIHeights := [] }
  if xSize = 0 ∧ ySize = 0 then
    let s1 := (resizeImageBuffer s0).2
    (DEVICE_OK, { s1 with roiX := 0, roiY := 0 })
  else
    (DEVICE_OK, { s0 with img := s0.img.resize2 xSize ySize,
                          roiX := x, roiY := y })

/-- `XZellZeissCamera::ClearROI`: full-frame resize via
`ResizeImageBuffer`, origin reset to `(0,0)`, multi-ROI rectangles
discarded. -/
def clearROI (s : Camera) : Int × Camera :=
  let s1 := (resizeImageBuffer s).2
  (DEVICE_OK,
   { s1 with roiX := 0, roiY := 0,
             multiROIXs := [], multiROIYs := [],
             multiROIWidths := [], multiROIHeights := [] })

/-- `XZellZeissCamera::StartSequenceAcquisition(numImages, interval_ms,
stopOnOverflow)`: fails with `DEVICE_CAMERA_BUSY_ACQUIRING` while a run is
in progress, before any state is touched; then `PrepareForAcq` (external,
its result passed in as `prepRet`) can fail, also before any mutation; on
success it zeroes the camera frame counter, programs and starts the worker
thread (`thd_->Start` sets the run length, interval, per-run counter and
clears the stop/suspend flags) and records the overflow policy. -/
def startSequenceAcquisition (s : Camera) (numImages : Int) (intervalMs : Rat)
    (stopOnOverflow : Bool) (prepRet : Int) : Int × Camera :=
  if isCapturing s then
    (DEVICE_CAMERA_BUSY_ACQUIRING, s)
  else if prepRet ≠ DEVICE_OK then
    (prepRet, s)
  else
    (DEVICE_OK,
     { s with imageCounter := 0,
              thd := { numImages := numImages, intervalMs := intervalMs,
                       imageCounter := 0, stop := false, suspend := false },
              stopOnOverflow := stopOnOverflow })

/-- `XZellZeissCamera::StopSequenceAcquisition` touches the worker's stop
flag plus process-global handoff resources; this record keeps exactly that
footprint: the stop flag, the number of `McammStopContinuousAcquisition`
calls issued, and the number of times the three handoff buffers
(`ImageBufferWithHeader[0]`, `ImageBufferWithHeader[1]`, `processedImage`)
have been passed to `free`. -/
structure StopCtx where
  threadStop : Bool
  hwStopCalls : Nat
  freeCalls : Nat
  deriving Repr, DecidableEq

/-- `XZellZeissCamera::StopSequenceAcquisition`: always calls the hardware
stop, sets the worker stop flag if the worker is not already stopped, then
unconditionally frees the three handoff buffers, and returns `DEVICE_OK`. -/
def stopSequenceAcquisition (s : StopCtx) : Int × StopCtx :=
  let s1 := { s with hwStopCalls := s.hwStopCalls + 1 }
  let s2 := if s1.threadStop = false then { s1 with threadStop := true } else s1
  let s3 := { s2 with freeCalls := s2.freeCalls + 1 }
  (DEVICE_OK, s3)

/-! ## Double-buffer handoff

Process-global state shared by the vendor callback (`LiveCallback`, the
producer) and the drain step (`MoveImageToCircularBuffer`, the consumer):
two slot sequence numbers (`int imageNumber[2]`), the shared frame counter
(`unsigned int imageCount`, wrapping at `2^32`), the last drained sequence
number (`int lastImageRead`) and the condition-variable flag
(`bool newImageAvailable`).  Each slot's mutex is modelled by a boolean
oracle saying whether `try_lock` succeeds at that moment. -/

structure Handoff where
  imageNumber0 : Int
  imageNumber1 : Int
  imageCount : Int
  lastImageRead : Int
  newImageAvailable : Bool
  deriving Repr, DecidableEq

/-- `LiveCallback`: tries `try_lock` on slot 0 then slot 1; on the first
success it copies the frame in, increments the shared counter (unsigned
32-bit arithmetic), records it as the slot's sequence number, and raises
the new-frame flag; if both try-locks fail the frame is skipped and nothing
changes. -/
def liveCallback (s : Handoff) (lock0Free lock1Free : Bool) : Handoff :=
  if lock0Free then
    { s with imageCount := (s.imageCount + 1) % 2 ^ 32,
             imageNumber0 := (s.imageCount + 1) % 2 ^ 32,
             newImageAvailable := true }
  else if lock1Free then
    { s with imageCount := (s.imageCount + 1) % 2 ^ 32,
             imageNumber1 := (s.imageCount + 1) % 2 ^ 32,
             newImageAvailable := true }
  else
    s

/-- Slot-scan loop of `MoveImageToCircularBuffer` (`for k = 0..1`): a slot
is selected when its sequence number exceeds `lastImageRead` and its
`try_lock` succeeds, the lower index winning; the selected slot's sequence
number is returned. -/
def scanSlots (s : Handoff) (lock0Free lock1Free : Bool) : Option Int :=
  if s.lastImageRead < s.imageNumber0 ∧ lock0Free then
    some s.imageNumber0
  else if s.lastImageRead < s.imageNumber1 ∧ lock1Free then
    some s.imageNumber1
  else
    none

/-! ## Sink adapter (core circular buffer) -/

/-- Downstream sink: the Micro-Manager core circular buffer, modelled as
the oracle of the results its `InsertImage` returns on successive calls
(consumed one per call, `DEVICE_OK` once exhausted), plus a count of
`ClearImageBuffer` calls. -/
structure SinkModel where
  results : List Int
  clearCalls : Nat
  deriving Repr, DecidableEq

/-- One call to the core's `InsertImage`, consuming the next oracle
result. -/
def SinkModel.insert (m : SinkModel) : Int × SinkModel :=
  match m.results with
  | [] => (DEVICE_OK, m)
  | r :: rest => (r, { m with results := rest })

/-- Overflow policy applied around the core `InsertImage` call (the same
code shape appears in `XZellZeissCamera::InsertImage` and in
`MoveImageToCircularBuffer`): on `DEVICE_BUFFER_OVERFLOW` with
`stopOnOverflow_` false, clear the core buffer and retry the same frame
exactly once, returning the retry's result; in every other case return the
first result unchanged. -/
def insertWithOverflowPolicy (stopOnOverflow : Bool) (m : SinkModel) :
    Int × SinkModel :=
  let (ret, m1) := m.insert
  if stopOnOverflow = false ∧ ret = DEVICE_BUFFER_OVERFLOW then
    let m2 := { m1 with clearCalls := m1.clearCalls + 1 }
    m2.insert
  else
    (ret, m1)

/-- Result of one `MoveImageToCircularBuffer` call: updated handoff state,
the sequence number handed to the sink (if any), the sink after the
delivery, and the returned status code. -/
structure MoveResult where
  state : Handoff
  delivered : Option Int
  sink : SinkModel
  ret : Int
  deriving Repr, DecidableEq

/-- `XZellZeissCamera::MoveImageToCircularBuffer`: fails with `DEVICE_ERR`
when not capturing; otherwise waits on the condition variable, scans the
two slots, and if a newer frame is found records its sequence number in
`lastImageRead`, lowers the new-frame flag and hands the frame to the core
buffer under the overflow policy; if no slot holds a newer frame (or its
try-lock fails) it lowers the flag and returns
`DEVICE_CAMERA_BUSY_ACQUIRING` without delivering anything. -/
def moveImageToCircularBuffer (s : Handoff) (capturing stopOnOverflow : Bool)
    (lock0Free lock1Free : Bool) (sink : SinkModel) : MoveResult :=
  if capturing = false then
    ⟨s, none, sink, DEVICE_ERR⟩
  else
    match scanSlots s lock0Free lock1Free with
    | some n =>
        let s' := { s with lastImageRead := n, newImageAvailable := false }
        let rs := insertWithOverflowPolicy stopOnOverflow sink
        ⟨s', some n, rs.2, rs.1⟩
    | none =>
        ⟨{ s with newImageAvailable := false }, none, sink,
         DEVICE_CAMERA_BUSY_ACQUIRING⟩

/-! ## Handoff traces

Interleavings of producer callbacks and consumer drain steps, each step
carrying its lock-availability oracle (and, for drains, the sink's
responses for that delivery). -/

inductive HandoffEv where
  | produce (lock0Free lock1Free : Bool)
  | drain (lock0Free lock1Free : Bool) (sinkResults : List Int)

/-- Runs a trace of producer/consumer events from a handoff state,
collecting the sequence numbers handed to the sink, in delivery order. -/
def runHandoff (stopOnOverflow : Bool) : Handoff → List HandoffEv → List Int
  | _, [] => []
  | s, .produce l0 l1 :: evs =>
      runHandoff stopOnOverflow (liveCallback s l0 l1) evs
  | s, .drain l0 l1 res :: evs =>
      let m := moveImageToCircularBuffer s true stopOnOverflow l0 l1 ⟨res, 0⟩
      match m.delivered with
      | some n => n :: runHandoff stopOnOverflow m.state evs
      | none => runHandoff stopOnOverflow m.state evs

/-! ## Acquisition worker loop -/

/-- Outcome of one drain step as seen by the worker loop: a returned status
code, or an exception escaping the call. -/
inductive StepOutcome where
  | ok (ret : Int)
  | fault

/-- Result of the worker loop of `ZeissAcquisitionThread::svc`: number of
completed loop iterations, the final value of `ret`, whether an exception
was caught by the loop's catch-all, and the final value of the thread's
`imageCounter_`. -/
structure LoopOut where
  iterations : Nat
  ret : Int
  faulted : Bool
  counter : Int
  deriving Repr, DecidableEq

/-- Drain loop of `ZeissAcquisitionThread::svc`: a do/while that runs one
delivery step per iteration and continues while the step returned
`DEVICE_OK`, no stop was requested, and the post-incremented iteration
counter stayed below `numImages_ - 1` (short-circuit: the counter is
incremented only when the first two tests pass).  The delivery results and
the externally set stop flag are oracles indexed by iteration; `fuel`
bounds the recursion and is never exhausted in the runs the theorems
describe. -/
def svcLoop (step : Nat → StepOutcome) (stopReq : Nat → Bool)
    (numImages : Int) : Nat → Nat → Int → Int → LoopOut
  | 0, i, counter, retAcc => ⟨i, retAcc, false, counter⟩
  | fuel + 1, i, counter, retAcc =>
      match step i with
      | .fault => ⟨i, retAcc, true, counter⟩
      | .ok r =>
          if r = DEVICE_OK ∧ stopReq i = false ∧ counter < numImages - 1 then
            svcLoop step stopReq numImages fuel (i + 1) (counter + 1) r
          else
            ⟨i + 1, r, false,
             if r = DEVICE_OK ∧ stopReq i = false then counter + 1
             else counter⟩

/-- `XZellZeissCamera::OnThreadExiting`: logs and calls the core's
`AcqFinished` exactly once, the whole body wrapped in try/catch(...), so an
exception thrown by the notification is logged and never escapes.  Returns
the number of `AcqFinished` invocations and whether an exception
propagates out. -/
def onThreadExiting (notifyThrows : Bool) : Nat × Bool :=
  if notifyThrows then (1, false) else (1, false)

/-- Result of one whole `ZeissAcquisitionThread::svc` run. -/
structure SvcOut where
  iterations : Nat
  ret : Int
  faulted : Bool
  stopFlag : Bool
  acqFinishedCalls : Nat
  exceptionEscapes : Bool
  deriving Repr, DecidableEq

/-- `ZeissAcquisitionThread::svc`: runs the drain loop inside a catch-all,
then unconditionally sets `stop_ = true` and calls `OnThreadExiting` —
so the stop flag and the finished notification happen on every exit path,
including an exception escaping the loop. -/
def svc (step : Nat → StepOutcome) (stopReq : Nat → Bool) (numImages : Int)
    (notifyThrows : Bool) (fuel : Nat) : SvcOut :=
  let l := svcLoop step stopReq numImages fuel 0 0 DEVICE_ERR
  let n := onThreadExiting notifyThrows
  ⟨l.iterations, l.ret, l.faulted, true, n.1, n.2⟩

/-- Delivery loop as exercised for the overflow-policy scenarios: the svc
do/while where every drain finds a fresh frame and the per-frame delivery
is `insertWithOverflowPolicy` against a shared sink oracle.  Returns the
number of frame-delivery iterations, the final status and the final
sink. -/
def runDeliveries (stopOnOverflow : Bool) (numImages : Int) :
    Nat → Int → SinkModel → Nat × Int × SinkModel
  | 0, _, sink => (0, DEVICE_ERR, sink)
  | fuel + 1, counter, sink =>
      let (r, sink') := insertWithOverflowPolicy stopOnOverflow sink
      if r = DEVICE_OK ∧ counter < numImages - 1 then
        let (n, ret, sink'') :=
          runDeliveries stopOnOverflow numImages fuel (counter + 1) sink'
        (n + 1, ret, sink'')
      else
        (1, r, sink')

/-! ## Synthetic pattern engine: fault injection -/

/-- Synthesis mode (`mode_`, set by `OnMode`): artificial sine waves,
Gaussian noise, or the color test pattern. -/
inductive CamMode where
  | artificialWaves
  | noise
  | colorTest
  deriving Repr, DecidableEq

/-- Drop-injection count computed in `GenerateSyntheticImage`:
`pixelsToDrop = (long)(0.5 + fractionOfPixelsToDropOrSaturate_ * H * W)`
when `dropPixels_` is set, else 0 (the cast truncates; on the nonnegative
values involved this is the floor). -/
def pixelsToDropCount (dropPixels : Bool) (fraction : Rat)
    (height width : Int) : Int :=
  if dropPixels then ⌊(1 / 2 : Rat) + fraction * height * width⌋ else 0

/-- Number of drop-injection writes performed by one
`GenerateSyntheticImage` call: the `MODE_NOISE` branch returns before any
injection code; the `MODE_COLOR_TEST` branch returns right after the color
pattern whenever the buffer depth is 1, 2 or 4 bytes (every depth
`GenerateColorTestPattern` handles); only the sine-wave path that follows
(taken in `MODE_ARTIFICIAL_WAVES`, guarded by a nonempty buffer, with the
drop loop present in both the 8-bit and the 16-bit branch) executes
`pixelsToDrop` writes of 0. -/
def generateSyntheticImageDropWrites (mode : CamMode) (imgDepth : Int)
    (pixelType : PixType) (dropPixels : Bool) (fraction : Rat)
    (height width : Int) : Int :=
  let sineBranch :=
    if height = 0 ∨ width = 0 ∨ imgDepth = 0 then 0
    else
      match pixelType with
      | .p8 => pixelsToDropCount dropPixels fraction height width
      | .p16 => pixelsToDropCount dropPixels fraction height width
  match mode with
  | .noise => 0
  | .colorTest =>
      if imgDepth = 1 ∨ imgDepth = 2 ∨ imgDepth = 4 then 0 else sineBranch
  | .artificialWaves => sineBranch

/-- Drop-injection loop body: each of the pseudo-randomly chosen
coordinates `(j, k)` gets `buf[width * j + k] = 0`, applied in order over a
linear frame buffer. -/
def applyDropWrites (width : Int) (coords : List (Int × Int))
    (frame : Int → Int) : Int → Int :=
  coords.foldl (fun f c => Function.update f (width * c.1 + c.2) 0) frame

/-! ## Sample states used by the concrete witnesses -/

/-- Camera with the Initialize defaults for geometry (512 x 512, binning 1,
8-bit) and an acquisition run in progress (thread not stopped, three frames
already delivered). -/
def runningCamera : Camera :=
  { img := ⟨512, 512, 1⟩
    cameraCCDXSize := 512
    cameraCCDYSize := 512
    binSize := 1
    pixelType := .p8
    roiX := 0
    roiY := 0
    multiROIXs := []
    multiROIYs := []
    multiROIWidths := []
    multiROIHeights := []
    imageCounter := 3
    stopOnOverflow := false
    thd := { numImages := 5, intervalMs := 100, imageCounter := 2,
             stop := false, suspend := false } }

/-- Idle variant of the sample camera (worker stopped). -/
def idleCamera : Camera :=
  { runningCamera with thd := { runningCamera.thd with stop := true } }

/-! ## Theorems -/

/-- Helper: the producer callback never touches `lastImageRead`. -/
theorem liveCallback_lastImageRead (s : Handoff) (l0 l1 : Bool) :
    (liveCallback s l0 l1).lastImageRead = s.lastImageRead := by
  unfold liveCallback
  split
  · rfl
  · split <;> rfl

/-- Helper: a selected slot's sequence number exceeds `lastImageRead`. -/
theorem scanSlots_gt (s : Handoff) (l0 l1 : Bool) (n : Int)
    (h : scanSlots s l0 l1 = some n) : s.lastImageRead < n := by
  unfold scanSlots at h
  split at h
  · cases h
    omega
  · split at h
    · cases h
      omega
    · cases h

/-- C4: while an acquisition run is in progress (`IsCapturing()` true),
`StartSequenceAcquisition` returns `DEVICE_CAMERA_BUSY_ACQUIRING` and
leaves the whole camera state unchanged — in particular the
frames-delivered counter is not reset and the run length and interval of
the worker keep their previous values. -/
theorem start_while_capturing_busy_and_unchanged (s : Camera) (n : Int)
    (iv : Rat) (ov : Bool) (prepRet : Int) (h : isCapturing s = true) :
    startSequenceAcquisition s n iv ov prepRet =
      (DEVICE_CAMERA_BUSY_ACQUIRING, s) ∧
    (startSequenceAcquisition s n iv ov prepRet).2.imageCounter =
      s.imageCounter ∧
    (startSequenceAcquisition s n iv ov prepRet).2.thd.numImages =
      s.thd.numImages ∧
    (startSequenceAcquisition s n iv ov prepRet).2.thd.intervalMs =
      s.thd.intervalMs := by
  unfold startSequenceAcquisition
  simp [h]

/-- Witness for C4 at a concrete running camera. -/
theorem start_while_capturing_busy_and_unchanged_witness :
    isCapturing runningCamera = true ∧
    startSequenceAcquisition runningCamera 10 50 true 0 =
      (DEVICE_CAMERA_BUSY_ACQUIRING, runningCamera) :=
  ⟨rfl, (start_while_capturing_busy_and_unchanged runningCamera 10 50 true 0
          rfl).1⟩

/-- C5: the CCD width/height setters fail with `DEVICE_ERR` exactly when
the requested value is below 16 or above 33000; on that error the stored
CCD dimension and the frame-buffer geometry are completely untouched; on an
in-range value different from the stored one the stored dimension is
updated and the buffer resized to the new binned geometry. -/
theorem ccd_size_setter_bounds (s : Camera) (v : Int) :
    ((onCameraCCDXSizeSet s v).1 = DEVICE_ERR ↔ v < 16 ∨ 33000 < v) ∧
    ((v < 16 ∨ 33000 < v) → onCameraCCDXSizeSet s v = (DEVICE_ERR, s)) ∧
    (¬(v < 16 ∨ 33000 < v) → v ≠ s.cameraCCDXSize →
      onCameraCCDXSizeSet s v =
        (DEVICE_OK,
         { s with cameraCCDXSize := v,
                  img := s.img.resize2 (v / s.binSize)
                           (s.cameraCCDYSize / s.binSize) })) ∧
    ((onCameraCCDYSizeSet s v).1 = DEVICE_ERR ↔ v < 16 ∨ 33000 < v) ∧
    ((v < 16 ∨ 33000 < v) → onCameraCCDYSizeSet s v = (DEVICE_ERR, s)) ∧
    (¬(v < 16 ∨ 33000 < v) → v ≠ s.cameraCCDYSize →
      onCameraCCDYSizeSet s v =
        (DEVICE_OK,
         { s with cameraCCDYSize := v,
                  img := s.img.resize2 (s.cameraCCDXSize / s.binSize)
                           (v / s.binSize) })) := by
  unfold onCameraCCDXSizeSet onCameraCCDYSizeSet
  refine ⟨?_, ?_, ?_, ?_, ?_, ?_⟩ <;>
    · split_ifs <;> simp_all [DEVICE_OK, DEVICE_ERR]

/-- Witness for C5: value 10 is rejected with no state change, value 1024
is accepted and resizes the buffer. -/
theorem ccd_size_setter_bounds_witness :
    onCameraCCDXSizeSet idleCamera 10 = (DEVICE_ERR, idleCamera) ∧
    onCameraCCDXSizeSet idleCamera 1024 =
      (DEVICE_OK,
       { idleCamera with cameraCCDXSize := 1024,
                         img := ⟨1024, 512, 1⟩ }) :=
  ⟨(ccd_size_setter_bounds idleCamera 10).2.1 (by decide),
   (ccd_size_setter_bounds idleCamera 1024).2.2.1 (by decide) (by decide)⟩

/-- C10: `SetROI(x, y, 0, 0)` has exactly the outcome of `ClearROI` (full
binned-frame resize, origin reset to the corner); any other size resizes
the buffer to `xSize × ySize` with origin `(x, y)`; and in every case the
previously configured multi-ROI rectangles are discarded. -/
theorem setROI_spec (s : Camera) (x y : Int) :
    setROI s x y 0 0 = clearROI s ∧
    (∀ xSize ySize : Int, ¬(xSize = 0 ∧ ySize = 0) →
      setROI s x y xSize ySize =
        (DEVICE_OK,
         { s with multiROIXs := [], multiROIYs := [],
                  multiROIWidths := [], multiROIHeights := [],
                  img := s.img.resize2 xSize ySize,
                  roiX := x, roiY := y })) ∧
    (∀ xSize ySize : Int,
      (setROI s x y xSize ySize).2.multiROIXs = [] ∧
      (setROI s x y xSize ySize).2.multiROIYs = [] ∧
      (setROI s x y xSize ySize).2.multiROIWidths = [] ∧
      (setROI s x y xSize ySize).2.multiROIHeights = []) := by
  refine ⟨?_, ?_, ?_⟩
  · unfold setROI clearROI resizeImageBuffer
    simp
  · intro xSize ySize h
    unfold setROI
    simp [h]
  · intro xSize ySize
    unfold setROI resizeImageBuffer
    split <;> simp

/-- C9 (code evaluation at the failing input): two consecutive
`StopSequenceAcquisition` calls both succeed with `DEVICE_OK` and the stop
flag stays set, but the three handoff buffers are passed to `free` once per
call — after the second call they have been freed twice, not once, so the
second call is not a no-op (on the real heap this is a double free). -/
theorem stop_twice_double_free :
    (stopSequenceAcquisition ⟨false, 0, 0⟩).1 = DEVICE_OK ∧
    (stopSequenceAcquisition ⟨false, 0, 0⟩).2.threadStop = true ∧
    (stopSequenceAcquisition ⟨false, 0, 0⟩).2.freeCalls = 1 ∧
    (stopSequenceAcquisition (stopSequenceAcquisition ⟨false, 0, 0⟩).2).1 =
      DEVICE_OK ∧
    (stopSequenceAcquisition
      (stopSequenceAcquisition ⟨false, 0, 0⟩).2).2.threadStop = true ∧
    (stopSequenceAcquisition
      (stopSequenceAcquisition ⟨false, 0, 0⟩).2).2.freeCalls = 2 ∧
    (stopSequenceAcquisition (stopSequenceAcquisition ⟨false, 0, 0⟩).2).2 ≠
      (stopSequenceAcquisition ⟨false, 0, 0⟩).2 := by
  decide

/-- C8 (code evaluation at the failing input): woken with the new-frame
flag raised but neither slot holding a sequence number above
`lastImageRead`, the drain step delivers nothing and returns
`DEVICE_CAMERA_BUSY_ACQUIRING`; that code is not `DEVICE_OK`, so the
worker's do/while exits after this single iteration even though no stop was
requested and the run length (1000) is far from reached — the condition
terminates the run instead of being re-checked. -/
theorem spurious_wake_terminates_run :
    (moveImageToCircularBuffer ⟨5, 4, 5, 5, true⟩ true false true true
      ⟨[], 0⟩).delivered = none ∧
    (moveImageToCircularBuffer ⟨5, 4, 5, 5, true⟩ true false true true
      ⟨[], 0⟩).ret = DEVICE_CAMERA_BUSY_ACQUIRING ∧
    DEVICE_CAMERA_BUSY_ACQUIRING ≠ DEVICE_OK ∧
    svcLoop (fun _ => .ok DEVICE_CAMERA_BUSY_ACQUIRING) (fun _ => false)
      1000 1000 0 0 DEVICE_ERR =
      ⟨1, DEVICE_CAMERA_BUSY_ACQUIRING, false, 0⟩ := by
  refine ⟨rfl, rfl, by decide, ?_⟩
  unfold svcLoop
  simp [DEVICE_OK, DEVICE_CAMERA_BUSY_ACQUIRING]

/-- C3: the overflow policy around one delivery — a first result of
`DEVICE_OK` is passed through with no clear and no retry; with
`stopOnOverflow = false` an overflow triggers exactly one clear and one
retry of the same frame, whose result (in particular a second overflow,
which is not `DEVICE_OK`) is surfaced; with `stopOnOverflow = true` the
first overflow is surfaced untouched.  On the 5-frame scenario whose sink
overflows once on frame 3: with `stopOnOverflow = false` the run completes
all 5 delivery iterations with final status `DEVICE_OK` and one buffer
clear; with `stopOnOverflow = true` the run stops after delivery 3 with
status `DEVICE_BUFFER_OVERFLOW`. -/
theorem overflow_policy_spec :
    (∀ (ov : Bool) (rest : List Int) (c : Nat),
      insertWithOverflowPolicy ov ⟨DEVICE_OK :: rest, c⟩ =
        (DEVICE_OK, ⟨rest, c⟩)) ∧
    (∀ (r2 : Int) (rest : List Int) (c : Nat),
      insertWithOverflowPolicy false
          ⟨DEVICE_BUFFER_OVERFLOW :: r2 :: rest, c⟩ = (r2, ⟨rest, c + 1⟩)) ∧
    (insertWithOverflowPolicy false
        ⟨[DEVICE_BUFFER_OVERFLOW, DEVICE_BUFFER_OVERFLOW], 0⟩ =
      (DEVICE_BUFFER_OVERFLOW, ⟨[], 1⟩) ∧
      DEVICE_BUFFER_OVERFLOW ≠ DEVICE_OK) ∧
    (∀ (rest : List Int) (c : Nat),
      insertWithOverflowPolicy true ⟨DEVICE_BUFFER_OVERFLOW :: rest, c⟩ =
        (DEVICE_BUFFER_OVERFLOW, ⟨rest, c⟩)) ∧
    runDeliveries false 5 6 0
        ⟨[DEVICE_OK, DEVICE_OK, DEVICE_BUFFER_OVERFLOW, DEVICE_OK,
          DEVICE_OK, DEVICE_OK], 0⟩ = (5, DEVICE_OK, ⟨[], 1⟩) ∧
    runDeliveries true 5 6 0
        ⟨[DEVICE_OK, DEVICE_OK, DEVICE_BUFFER_OVERFLOW, DEVICE_OK,
          DEVICE_OK, DEVICE_OK], 0⟩ =
      (3, DEVICE_BUFFER_OVERFLOW, ⟨[DEVICE_OK, DEVICE_OK, DEVICE_OK], 0⟩) := by
  refine ⟨?_, ?_, by decide, ?_, by decide, by decide⟩
  · intro ov rest c
    unfold insertWithOverflowPolicy SinkModel.insert
    rcases ov <;> simp [DEVICE_OK, DEVICE_BUFFER_OVERFLOW]
  · intro r2 rest c
    unfold insertWithOverflowPolicy SinkModel.insert
    simp [DEVICE_OK, DEVICE_BUFFER_OVERFLOW]
  · intro rest c
    unfold insertWithOverflowPolicy SinkModel.insert
    simp

/-- Geometry invariant of §8: the frame buffer's dimensions are the binned
CCD dimensions and its depth is the current pixel format's byte size. -/
def geomInv (s : Camera) : Prop :=
  s.img.width = s.cameraCCDXSize / s.binSize ∧
  s.img.height = s.cameraCCDYSize / s.binSize ∧
  s.img.depth = s.pixelType.byteDepth

/-- Helper: integer division of machine integers coincides with the
mathematical floor of the exact quotient whenever the divisor is
positive. -/
theorem int_div_eq_floor (a b : Int) (h : 0 < b) :
    a / b = ⌊(a : Rat) / (b : Rat)⌋ := by
  have hb : ((b.toNat : ℕ) : ℚ) = (b : ℚ) := by
    exact_mod_cast Int.toNat_of_nonneg h.le
  have hfl := Rat.floor_intCast_div_natCast a b.toNat
  rw [Int.toNat_of_nonneg h.le] at hfl
  rw [← hfl, hb]

/-- C6: `ResizeImageBuffer` establishes the geometry invariant
unconditionally; every successful geometry or format change (CCD width,
CCD height, pixel type, binning) preserves or re-establishes it; under the
invariant the reported image buffer size is exactly
`⌊ccdWidth / binning⌋ * ⌊ccdHeight / binning⌋ * bytesPerPixel`, the
division being the floor of the exact quotient for a positive binning
factor. -/
theorem geometry_invariant (s : Camera) :
    geomInv (resizeImageBuffer s).2 ∧
    (∀ v, (onCameraCCDXSizeSet s v).1 = DEVICE_OK → geomInv s →
      geomInv (onCameraCCDXSizeSet s v).2) ∧
    (∀ v, (onCameraCCDYSizeSet s v).1 = DEVICE_OK → geomInv s →
      geomInv (onCameraCCDYSizeSet s v).2) ∧
    (∀ pt, (onPixelTypeSet s pt).1 = DEVICE_OK → geomInv s →
      geomInv (onPixelTypeSet s pt).2) ∧
    (∀ b, (onBinningSet s b).1 = DEVICE_OK → geomInv (onBinningSet s b).2) ∧
    (geomInv s → getImageBufferSize s =
      (s.cameraCCDXSize / s.binSize) * (s.cameraCCDYSize / s.binSize) *
        s.pixelType.byteDepth) ∧
    (0 < s.binSize → s.cameraCCDXSize / s.binSize =
      ⌊(s.cameraCCDXSize : Rat) / (s.binSize : Rat)⌋) := by
  refine ⟨?_, ?_, ?_, ?_, ?_, ?_, ?_⟩
  · unfold resizeImageBuffer geomInv ImgBuf.resize3
    simp
  · intro v hret hinv
    unfold onCameraCCDXSizeSet at hret ⊢
    unfold geomInv at hinv ⊢
    unfold ImgBuf.resize2
    split_ifs at hret ⊢ <;> simp_all [DEVICE_OK, DEVICE_ERR]
  · intro v hret hinv
    unfold onCameraCCDYSizeSet at hret ⊢
    unfold geomInv at hinv ⊢
    unfold ImgBuf.resize2
    split_ifs at hret ⊢ <;> simp_all [DEVICE_OK, DEVICE_ERR]
  · intro pt hret hinv
    unfold onPixelTypeSet at hret ⊢
    unfold geomInv at hinv ⊢
    unfold ImgBuf.resize3
    split_ifs at hret ⊢ <;> simp_all [DEVICE_OK, DEVICE_CAMERA_BUSY_ACQUIRING]
  · intro b hret
    unfold onBinningSet at hret ⊢
    unfold resizeImageBuffer geomInv ImgBuf.resize3
    split_ifs at hret ⊢ <;> simp_all [DEVICE_OK, DEVICE_CAMERA_BUSY_ACQUIRING]
  · intro hinv
    unfold getImageBufferSize
    rw [hinv.1, hinv.2.1, hinv.2.2]
  · intro hb
    exact int_div_eq_floor _ _ hb

/-- Witness for C6 at the concrete idle camera: after switching to 16-bit
and binning 2, the buffer is 256 x 256 x 2 and the reported size is
131072. -/
theorem geometry_invariant_witness :
    (onBinningSet { idleCamera with pixelType := .p16 } 2).1 = DEVICE_OK ∧
    geomInv (onBinningSet { idleCamera with pixelType := .p16 } 2).2 ∧
    getImageBufferSize (onBinningSet { idleCamera with pixelType := .p16 } 2).2
      = 131072 :=
  ⟨rfl,
   (geometry_invariant { idleCamera with pixelType := .p16 }).2.2.2.2.1 2 rfl,
   by decide⟩

/-- Helper: unfolding one drop write. -/
theorem applyDropWrites_cons (w : Int) (d : Int × Int)
    (rest : List (Int × Int)) (f : Int → Int) :
    applyDropWrites w (d :: rest) f =
      applyDropWrites w rest (Function.update f (w * d.1 + d.2) 0) := rfl

/-- Helper: a buffer cell already holding 0 still holds 0 after the drop
writes (every write stores 0). -/
theorem applyDropWrites_eq_zero (w : Int) (coords : List (Int × Int))
    (f : Int → Int) (idx : Int) (h : f idx = 0) :
    applyDropWrites w coords f idx = 0 := by
  induction coords generalizing f with
  | nil => exact h
  | cons d rest ih =>
      rw [applyDropWrites_cons]
      apply ih
      rcases eq_or_ne idx (w * d.1 + d.2) with he | hne
      · simp [Function.update_apply, he]
      · simp [Function.update_apply, hne, h]

/-- Helper: every dropped coordinate reads back 0 after the injection
loop. -/
theorem applyDropWrites_mem (w : Int) (coords : List (Int × Int))
    (f : Int → Int) (c : Int × Int) (hc : c ∈ coords) :
    applyDropWrites w coords f (w * c.1 + c.2) = 0 := by
  induction coords generalizing f with
  | nil => cases hc
  | cons d rest ih =>
      rw [applyDropWrites_cons]
      rcases List.mem_cons.mp hc with he | hm
      · subst he
        exact applyDropWrites_eq_zero _ _ _ _ (by simp [Function.update_apply])
      · exact ih _ hm

/-- Helper: the drop count of the claim scenario evaluates to 100. -/
theorem pixelsToDropCount_scenario :
    pixelsToDropCount true (1 / 100) 100 100 = 100 := by
  unfold pixelsToDropCount
  norm_num [Int.floor_eq_iff]

/-- C7 counterexample: with drop injection enabled at `dropFraction = 1/100`
on a 100 x 100 8-bit frame, the Gaussian-noise mode performs no drop writes
at all (its branch returns before the injection code), and the sine-wave
mode performs `(long)(0.5 + 0.01 * 10000) = 100` drop writes — not the 10
the claim states. -/
theorem fault_injection_claim_false :
    generateSyntheticImageDropWrites .noise 1 .p8 true (1 / 100) 100 100
      = 0 ∧
    generateSyntheticImageDropWrites .artificialWaves 1 .p8 true (1 / 100)
      100 100 = 100 ∧
    generateSyntheticImageDropWrites .artificialWaves 1 .p8 true (1 / 100)
      100 100 ≠ 10 := by
  have h2 : generateSyntheticImageDropWrites .artificialWaves 1 .p8 true
      (1 / 100) 100 100 = 100 := by
    unfold generateSyntheticImageDropWrites
    simpa using pixelsToDropCount_scenario
  refine ⟨rfl, h2, ?_⟩
  rw [h2]
  decide

/-- C7 amended: drop injection runs only on the sine-wave path — the noise
mode performs no injection, the color-test mode none on any depth its
pattern generator handles (1, 2 or 4 bytes) — and in sine-wave mode with
`dropFraction = 1/100` on a 100 x 100 8-bit frame exactly
`⌊0.5 + 0.01 * 10000⌋ = 100` drop writes are performed, each forcing the
addressed pixel to 0 (coordinate collisions may leave fewer than 100
distinct pixels at 0). -/
theorem fault_injection_amended (depth : Int) (pt : PixType) (dp : Bool)
    (frac : Rat) (hgt wd : Int) :
    generateSyntheticImageDropWrites .noise depth pt dp frac hgt wd = 0 ∧
    ((depth = 1 ∨ depth = 2 ∨ depth = 4) →
      generateSyntheticImageDropWrites .colorTest depth pt dp frac hgt wd
        = 0) ∧
    generateSyntheticImageDropWrites .artificialWaves 1 .p8 true (1 / 100)
      100 100 = 100 ∧
    (∀ (w : Int) (coords : List (Int × Int)) (frame : Int → Int)
       (c : Int × Int), c ∈ coords →
      applyDropWrites w coords frame (w * c.1 + c.2) = 0) := by
  refine ⟨rfl, ?_, ?_, ?_⟩
  · intro hd
    unfold generateSyntheticImageDropWrites
    simp [hd]
  · unfold generateSyntheticImageDropWrites
    simpa using pixelsToDropCount_scenario
  · intro w coords frame c hc
    exact applyDropWrites_mem w coords frame c hc

/-- Witness for the amended C7 at concrete inputs: a 2-byte color-test
frame gets no drop writes, and a dropped coordinate (3, 4) of a 100-wide
frame reads back 0. -/
theorem fault_injection_amended_witness :
    generateSyntheticImageDropWrites .colorTest 2 .p16 true (1 / 100) 100
      100 = 0 ∧
    applyDropWrites 100 [(3, 4)] (fun _ => 7) (100 * 3 + 4) = 0 :=
  ⟨(fault_injection_amended 2 .p16 true (1 / 100) 100 100).2.1
     (Or.inr (Or.inl rfl)),
   (fault_injection_amended 2 .p16 true (1 / 100) 100 100).2.2.2 100
     [(3, 4)] (fun _ => 7) (3, 4) (by simp)⟩

/-- Helper: with every delivery returning `DEVICE_OK` and no stop request,
the do/while runs exactly once per remaining frame: started at counter `c`
with `c ≤ numImages - 1` and enough fuel, it performs
`(numImages - c).toNat` further iterations, ends with `ret = DEVICE_OK`, no
fault, and the thread counter at `numImages`. -/
theorem svcLoop_all_ok (N : Int) :
    ∀ (fuel i : Nat) (c retAcc : Int), c ≤ N - 1 →
      (N - 1 - c).toNat < fuel →
      svcLoop (fun _ => .ok DEVICE_OK) (fun _ => false) N fuel i c retAcc =
        ⟨i + (N - c).toNat, DEVICE_OK, false, N⟩ := by
  intro fuel
  induction fuel with
  | zero =>
      intro i c retAcc _ hfuel
      omega
  | succ fuel ih =>
      intro i c retAcc hc hfuel
      by_cases hlt : c < N - 1
      · simp only [svcLoop, hlt, and_true, true_and, eq_self_iff_true,
          if_true]
        rw [ih (i + 1) (c + 1) DEVICE_OK (by omega) (by omega)]
        simp only [LoopOut.mk.injEq, eq_self_iff_true, and_true, true_and]
        omega
      · simp only [svcLoop, hlt, and_true, true_and, and_false,
          eq_self_iff_true, if_false, if_true]
        simp only [LoopOut.mk.injEq, eq_self_iff_true, and_true, true_and]
        omega

/-- C1: a bounded run `Start(count = N)` with `N ≥ 1` in which every
delivery returns `DEVICE_OK` and no stop is requested performs exactly `N`
drain-loop iterations and ends with final status `DEVICE_OK`; and on every
exit path — arbitrary delivery results including an escaping exception,
arbitrary stop requests, the finished notification itself throwing — the
worker sets the stop flag, invokes the acquisition-finished notification
exactly once, and lets no exception propagate out of it. -/
theorem svc_bounded_run (N : Nat) (hN : 1 ≤ N) :
    (svc (fun _ => .ok DEVICE_OK) (fun _ => false) (N : Int) false
        N).iterations = N ∧
    (svc (fun _ => .ok DEVICE_OK) (fun _ => false) (N : Int) false N).ret =
      DEVICE_OK ∧
    (svc (fun _ => .ok DEVICE_OK) (fun _ => false) (N : Int) false
        N).faulted = false ∧
    (∀ (step : Nat → StepOutcome) (stopReq : Nat → Bool)
       (notifyThrows : Bool) (fuel : Nat),
      (svc step stopReq (N : Int) notifyThrows fuel).stopFlag = true ∧
      (svc step stopReq (N : Int) notifyThrows fuel).acqFinishedCalls = 1 ∧
      (svc step stopReq (N : Int) notifyThrows fuel).exceptionEscapes =
        false) := by
  have hloop := svcLoop_all_ok (N : Int) N 0 0 DEVICE_ERR (by omega)
    (by omega)
  refine ⟨?_, ?_, ?_, ?_⟩
  · unfold svc
    rw [hloop]
    simp
  · unfold svc
    rw [hloop]
  · unfold svc
    rw [hloop]
  · intro step stopReq notifyThrows fuel
    unfold svc onThreadExiting
    rcases notifyThrows <;> simp

/-- Witness for C1 at `N = 5`: the loop makes exactly 5 iterations, stops,
and notifies once. -/
theorem svc_bounded_run_witness :
    (1 : Nat) ≤ 5 ∧
    (svc (fun _ => .ok DEVICE_OK) (fun _ => false) ((5 : Nat) : Int) false
        5).iterations = 5 ∧
    (svc (fun _ => .ok DEVICE_OK) (fun _ => false) ((5 : Nat) : Int) false
        5).stopFlag = true ∧
    (svc (fun _ => .ok DEVICE_OK) (fun _ => false) ((5 : Nat) : Int) false
        5).acqFinishedCalls = 1 :=
  ⟨by decide, (svc_bounded_run 5 (by decide)).1,
   ((svc_bounded_run 5 (by decide)).2.2.2 (fun _ => .ok DEVICE_OK)
     (fun _ => false) false 5).1,
   ((svc_bounded_run 5 (by decide)).2.2.2 (fun _ => .ok DEVICE_OK)
     (fun _ => false) false 5).2.1⟩

/-- Helper: when a drain step delivers a frame, its sequence number
strictly exceeds the previous `lastImageRead` and becomes the new
`lastImageRead`. -/
theorem moveImage_delivered (s : Handoff) (o l0 l1 : Bool)
    (sink : SinkModel) (n : Int)
    (h : (moveImageToCircularBuffer s true o l0 l1 sink).delivered = some n) :
    s.lastImageRead < n ∧
    (moveImageToCircularBuffer s true o l0 l1 sink).state.lastImageRead
      = n := by
  unfold moveImageToCircularBuffer at h ⊢
  cases hscan : scanSlots s l0 l1 with
  | none => simp [hscan] at h
  | some m =>
      simp only [hscan, Bool.true_eq_false, if_false] at h ⊢
      have hmn : m = n := by simpa using h
      subst hmn
      exact ⟨scanSlots_gt s l0 l1 m hscan, by simp⟩

/-- Helper: when a drain step delivers nothing, `lastImageRead` is
unchanged. -/
theorem moveImage_none (s : Handoff) (o l0 l1 : Bool) (sink : SinkModel)
    (h : (moveImageToCircularBuffer s true o l0 l1 sink).delivered = none) :
    (moveImageToCircularBuffer s true o l0 l1 sink).state.lastImageRead =
      s.lastImageRead := by
  unfold moveImageToCircularBuffer at h ⊢
  cases hscan : scanSlots s l0 l1 with
  | none => simp [hscan]
  | some m => simp [hscan] at h

/-- Helper: along any producer/consumer interleaving, the delivered
sequence numbers form a strictly ascending chain, all above the starting
`lastImageRead`. -/
theorem runHandoff_chain (o : Bool) :
    ∀ (evs : List HandoffEv) (s : Handoff),
      List.Chain' (· < ·) (runHandoff o s evs) ∧
      ∀ x ∈ runHandoff o s evs, s.lastImageRead < x := by
  intro evs
  induction evs with
  | nil =>
      intro s
      simp [runHandoff]
  | cons ev rest ih =>
      intro s
      cases ev with
      | produce l0 l1 =>
          rw [runHandoff]
          have h := ih (liveCallback s l0 l1)
          refine ⟨h.1, fun x hx => ?_⟩
          have := h.2 x hx
          rwa [liveCallback_lastImageRead] at this
      | drain l0 l1 res =>
          rw [runHandoff]
          cases hdel : (moveImageToCircularBuffer s true o l0 l1
              ⟨res, 0⟩).delivered with
          | none =>
              have h := ih (moveImageToCircularBuffer s true o l0 l1
                ⟨res, 0⟩).state
              refine ⟨h.1, fun x hx => ?_⟩
              have := h.2 x hx
              rwa [moveImage_none s o l0 l1 ⟨res, 0⟩ hdel] at this
          | some n =>
              have hd := moveImage_delivered s o l0 l1 ⟨res, 0⟩ n hdel
              have h := ih (moveImageToCircularBuffer s true o l0 l1
                ⟨res, 0⟩).state
              have hgt : ∀ x ∈ runHandoff o (moveImageToCircularBuffer s
                  true o l0 l1 ⟨res, 0⟩).state rest, n < x := by
                intro x hx
                have := h.2 x hx
                rwa [hd.2] at this
              refine ⟨List.chain'_cons'.mpr ⟨fun y hy => ?_, h.1⟩,
                fun x hx => ?_⟩
              · exact hgt y (List.mem_of_mem_head? hy)
              · rcases List.mem_cons.mp hx with he | hm
                · exact he ▸ hd.1
                · exact lt_trans hd.1 (hgt x hm)

/-- C2: within one run the sequence numbers handed to the sink are
strictly increasing — along every producer/consumer interleaving the
delivered list is a strictly ascending chain with no duplicates — because
a slot is drained only when its sequence number exceeds `lastImageRead`,
and every drain records the delivered number in `lastImageRead`. -/
theorem delivered_monotonic (o : Bool) (s : Handoff) (evs : List HandoffEv) :
    List.Chain' (· < ·) (runHandoff o s evs) ∧
    List.Pairwise (· ≠ ·) (runHandoff o s evs) ∧
    (∀ (l0 l1 : Bool) (sink : SinkModel) (n : Int),
      (moveImageToCircularBuffer s true o l0 l1 sink).delivered = some n →
      s.lastImageRead < n ∧
      (moveImageToCircularBuffer s true o l0 l1 sink).state.lastImageRead
        = n) := by
  have h := runHandoff_chain o evs s
  refine ⟨h.1, ?_, fun l0 l1 sink n hn => moveImage_delivered s o l0 l1
    sink n hn⟩
  have hp : List.Pairwise (· < ·) (runHandoff o s evs) :=
    List.chain'_iff_pairwise.mp h.1
  exact hp.imp (fun hab => ne_of_lt hab)

end XZellZeissCam
